import Mathlib

/-!
# reOTA: the OTA update task (`src/src/reOTA.cpp`)

A shallow embedding of `otaTaskExec` and `otaStart`.

* Every call the code makes to a collaborator (Telegram, event loop, FreeRTOS,
  `esp_timer`, `esp_https_ota`, `free`, `espRestart`, the log) and the assignment
  `_otaTask = nullptr` is recorded as an `Event`, in program order.
* What the collaborators answer is read from an `Env`: the result of the i-th
  call of `esp_https_ota`, whether `esp_timer_create` succeeds, what
  `esp_timer_is_active` answers, whether `espRestart` comes back to its caller.
* The `do ... while` loop gets fuel (a bound on the number of iterations); that it
  ends is proved where a claim needs it.
* The watchdog callback `otaTaskWatchdog` is only registered, never run: the runs
  described here are those in which the watchdog does not fire.
* `otaStart` and the scheduling of the worker are a transition system (`System`):
  a live task carries the effects it has still to perform and performs them one
  at a time, interleaved with calls of `otaStart`. A call of `otaStart` that
  creates a task is two transitions: lines 111-113, then lines 114-120, where
  `_otaTask` is read again; effects of workers can fall in between.
-/

namespace ReOTA

/-! ## Data -/

/-- A C string on the heap: the address of its buffer and its characters (the
terminating NUL left out). -/
structure CString where
  addr : Nat
  chars : List Nat
deriving DecidableEq, Repr

/-- A `char*` / `void*` argument: `none` is `nullptr`. -/
abbrev CharPtr := Option CString

/-- Value of `esp_err_t` that means success. -/
def ESP_OK : Int := 0

/-- The two values posted on `RE_SYS_OTA`. -/
inductive BusValue where
  | RE_SYS_SET
  | RE_SYS_CLEAR
deriving DecidableEq, Repr

/-- Reasons handed to `espRestart`. -/
inductive ResetReason where
  | RR_OTA
  | RR_OTA_TIMEOUT
deriving DecidableEq, Repr

/-- The three Telegram messages of the worker, with their argument. -/
inductive TgMessage where
  | CONFIG_MESSAGE_TG_OTA (otaSource : CString)
  | CONFIG_MESSAGE_TG_OTA_OK (err : Int)
  | CONFIG_MESSAGE_TG_OTA_FAILED (err : Int)
deriving DecidableEq, Repr

/-- The log lines of the file that can be reached. -/
inductive LogLine where
  | startOfUpgrade (otaSource : CString) (attempt : Nat)
  | upgradeCompleted
  | upgradeFailed (err : Int)
  | taskCreated
  | taskCreateFailed
  | alreadyStarted
  | sourceNotSpecified
deriving DecidableEq, Repr

/-- One effect of the code, as seen from outside. -/
inductive Event where
  | tgSend (m : TgMessage)
  | eventLoopPostSystem (v : BusValue)
  | vTaskDelay (ms : Nat)
  | esp_timer_create (ok : Bool)
  | esp_timer_start_once (us : Nat)
  | rlog (l : LogLine)
  | esp_https_ota (url : CString) (skipCertCommonNameCheck useGlobalCaStore isAsync : Bool)
      (result : Int)
  | free (p : CString)
  | otaTaskNull
  | esp_timer_is_active (answer : Bool)
  | esp_timer_stop
  | esp_timer_delete
  | espRestart (reason : ResetReason) (delayMs : Nat)
  | vTaskDelete
deriving DecidableEq, Repr

/-- Build configuration (`project_config.h`, `def_consts.h`), taken as parameters.
`telegram` stands for `CONFIG_TELEGRAM_ENABLE && CONFIG_NOTIFY_TELEGRAM_OTA`. -/
structure Config where
  CONFIG_OTA_DELAY : Nat
  CONFIG_OTA_WATCHDOG : Nat
  CONFIG_OTA_ATTEMPTS : Nat
  telegram : Bool

/-- Answers of the collaborators during one run of the worker.
`esp_https_ota i` is the result of the i-th invocation (counted from 1).
`uninitHWatchdog` says whether the never-assigned local `hWatchdog` happens to be
non-null when `esp_timer_create` failed. -/
structure Env where
  cfg : Config
  esp_https_ota : Nat → Int
  esp_timer_create : Bool
  uninitHWatchdog : Bool
  esp_timer_is_active : Bool
  espRestartReturns : Bool

/-! ## `otaTaskExec` -/

/-- What the `do ... while` loop leaves behind: its effects, `err`, `tryUpdate`
and the number of invocations of `esp_https_ota` made. -/
structure LoopResult where
  events : List Event
  err : Int
  tryUpdate : Nat
  calls : Nat

/-- One pass through the loop body (lines 55-70): the effects, for the new value
of `tryUpdate` and the result `err` of this invocation. -/
def loopBody (env : Env) (otaSource : CString) (tryUpdate : Nat) (err : Int) : List Event :=
  [Event.rlog (LogLine.startOfUpgrade otaSource tryUpdate),
   Event.esp_https_ota otaSource false true false err] ++
  (if err = ESP_OK then [Event.rlog LogLine.upgradeCompleted]
   else [Event.rlog (LogLine.upgradeFailed err), Event.vTaskDelay env.cfg.CONFIG_OTA_DELAY])

/-- The loop of lines 54-71. `tryUpdate` is a `uint8_t`: `tryUpdate++` wraps at 256.
`calls` counts the invocations already made. -/
def retryLoop (env : Env) (otaSource : CString) : Nat → Nat → Nat → Option LoopResult
  | 0, _, _ => none
  | fuel + 1, tryUpdate, calls =>
    let tryUpdate1 := (tryUpdate + 1) % 256
    let err := env.esp_https_ota (calls + 1)
    let body := loopBody env otaSource tryUpdate1 err
    if err ≠ ESP_OK ∧ tryUpdate1 < env.cfg.CONFIG_OTA_ATTEMPTS then
      (retryLoop env otaSource fuel tryUpdate1 (calls + 1)).map
        (fun r => { r with events := body ++ r.events })
    else
      some { events := body, err := err, tryUpdate := tryUpdate1, calls := calls + 1 }

/-- Lines 31-48: start alert, suspend, settle delay, watchdog. -/
def startEvents (env : Env) (otaSource : CString) : List Event :=
  (if env.cfg.telegram then [Event.tgSend (TgMessage.CONFIG_MESSAGE_TG_OTA otaSource)] else []) ++
  [Event.eventLoopPostSystem BusValue.RE_SYS_SET,
   Event.vTaskDelay env.cfg.CONFIG_OTA_DELAY,
   Event.esp_timer_create env.esp_timer_create] ++
  (if env.esp_timer_create then
     [Event.esp_timer_start_once (env.cfg.CONFIG_OTA_WATCHDOG * 1000000)]
   else [])

/-- Whether `if (hWatchdog)` holds at line 91. -/
def hWatchdogNonNull (env : Env) : Bool :=
  if env.esp_timer_create then true else env.uninitHWatchdog

/-- Lines 90-96: stop and delete the timer. -/
def stopTimerEvents (env : Env) : List Event :=
  if hWatchdogNonNull env then
    [Event.esp_timer_is_active env.esp_timer_is_active] ++
    (if env.esp_timer_is_active then [Event.esp_timer_stop] else []) ++
    [Event.esp_timer_delete]
  else []

/-- Lines 103-105, after the `if (pvParameters)` block. -/
def exitEvents : List Event :=
  [Event.eventLoopPostSystem BusValue.RE_SYS_CLEAR, Event.vTaskDelete]

/-- Lines 73-105: everything after the loop, for the final `err`. -/
def finishEvents (env : Env) (otaSource : CString) (err : Int) : List Event :=
  [Event.eventLoopPostSystem BusValue.RE_SYS_CLEAR] ++
  (if env.cfg.telegram then
     (if err = ESP_OK then [Event.tgSend (TgMessage.CONFIG_MESSAGE_TG_OTA_OK err)]
      else [Event.tgSend (TgMessage.CONFIG_MESSAGE_TG_OTA_FAILED err)])
   else []) ++
  [Event.free otaSource, Event.otaTaskNull] ++
  stopTimerEvents env ++
  (if err = ESP_OK then
     [Event.espRestart ResetReason.RR_OTA env.cfg.CONFIG_OTA_DELAY] ++
     (if env.espRestartReturns then exitEvents else [])
   else exitEvents)

/-- The task function. `none`: the loop did not end within `fuel` iterations. -/
def otaTaskExec (env : Env) (fuel : Nat) (pvParameters : CharPtr) : Option (List Event) :=
  match pvParameters with
  | some otaSource =>
    match retryLoop env otaSource fuel 0 0 with
    | some r => some (startEvents env otaSource ++ r.events ++ finishEvents env otaSource r.err)
    | none => none
  | none => some exitEvents

/-! ## `otaStart` and the scheduling of tasks -/

/-- A live FreeRTOS task: its handle and the effects it has still to perform. -/
structure Task where
  handle : Nat
  pending : List Event
deriving DecidableEq, Repr

/-- The state shared by the callers of `otaStart` and the workers: the static
`_otaTask`, the live tasks, the next fresh handle, the effects performed so far, and
`caller`: the source of a call of `otaStart` that has returned from
`xTaskCreatePinnedToCore` (line 113) and has not yet executed line 114. -/
structure System where
  _otaTask : Option Nat
  tasks : List Task
  nextHandle : Nat
  trace : List Event
  caller : Option CString
deriving DecidableEq, Repr

/-- State at boot: `_otaTask = nullptr`, no task, no call of `otaStart` under way. -/
def System.boot : System :=
  { _otaTask := none, tasks := [], nextHandle := 1, trace := [], caller := none }

/-- Append effects to the record of what has been performed. -/
def System.emit (s : System) (es : List Event) : System :=
  { s with trace := s.trace ++ es }

/-- The call `xTaskCreatePinnedToCore(otaTaskExec, ..., otaSource, ..., &_otaTask, ...)`:
when it succeeds a task that will perform `code` (the effects of
`otaTaskExec(otaSource)`) exists and its handle is stored in `_otaTask`; when it
fails nothing is written. -/
def xTaskCreatePinnedToCore (ok : Bool) (code : List Event) (s : System) : System :=
  if ok then
    { s with _otaTask := some s.nextHandle,
             tasks := s.tasks ++ [{ handle := s.nextHandle, pending := code }],
             nextHandle := s.nextHandle + 1 }
  else s

/-- Lines 114-120: what `otaStart` does once `xTaskCreatePinnedToCore` has returned.
It reads `_otaTask` as it is now. -/
def otaStartAfterCreate (src : CString) (s : System) : System :=
  if s._otaTask.isSome then
    s.emit [Event.rlog LogLine.taskCreated]
  else
    s.emit [Event.rlog LogLine.taskCreateFailed, Event.free src]

/-- Lines 109-128, executed with no effect of a worker in between. `createOk` is the
outcome of task creation and `code` the effects of `otaTaskExec(otaSource)` for the
task created. -/
def otaStart (createOk : Bool) (code : List Event) (otaSource : CharPtr) (s : System) : System :=
  match otaSource with
  | some src =>
    if s._otaTask = none then
      otaStartAfterCreate src (xTaskCreatePinnedToCore createOk code s)
    else
      s.emit [Event.rlog LogLine.alreadyStarted, Event.free src]
  | none => s.emit [Event.rlog LogLine.sourceNotSpecified]

/-- Lines 111-113 of a call with a non-null source that finds `_otaTask` null: the
task is created (or not) and the caller stands between line 113 and line 114. -/
def otaStartCreate (createOk : Bool) (code : List Event) (src : CString) (s : System) : System :=
  { xTaskCreatePinnedToCore createOk code s with caller := some src }

/-- The caller that stands between line 113 and line 114 goes on: lines 114-120. -/
def otaStartResume (s : System) : System :=
  match s.caller with
  | some src => otaStartAfterCreate src { s with caller := none }
  | none => s

/-- Effect of one event on `_otaTask`: only the assignment of line 88 writes it. -/
def Event.applySlot (e : Event) (slot : Option Nat) : Option Nat :=
  if e = Event.otaTaskNull then none else slot

/-- Value of `_otaTask` after a sequence of worker effects. -/
def slotAfter (slot : Option Nat) (es : List Event) : Option Nat :=
  es.foldl (fun sl e => e.applySlot sl) slot

/-- Task number `i` performs its next effect: the effect, and the tasks afterwards.
`vTaskDelete(nullptr)` ends the task. A task with nothing left is blocked in
`espRestart`. -/
def performAt : Nat → List Task → Option (Event × List Task)
  | _, [] => none
  | 0, t :: ts =>
    match t.pending with
    | [] => none
    | e :: rest =>
      some (e, if e = Event.vTaskDelete then ts else { t with pending := rest } :: ts)
  | i + 1, t :: ts =>
    match performAt i ts with
    | some (e, ts1) => some (e, t :: ts1)
    | none => none

/-- One scheduling step: task number `i` performs its next effect. -/
def System.stepTask (i : Nat) (s : System) : System :=
  match performAt i s.tasks with
  | some (e, ts) =>
    { s with _otaTask := e.applySlot s._otaTask, tasks := ts, trace := s.trace ++ [e] }
  | none => s

/-- Task number `i` performs its next `n` effects. -/
def System.stepsTask (i : Nat) : Nat → System → System
  | 0, s => s
  | n + 1, s => System.stepsTask i n (s.stepTask i)

/-- States that calls of `otaStart` and steps of workers lead to from boot.
`start` is a call that no worker interrupts; `create` and `resume` are the two
halves of a call during which workers may run (one such call at a time).
The workers are those whose loop ends. -/
inductive Reachable : System → Prop where
  | boot : Reachable System.boot
  | start {s : System} (env : Env) (fuel : Nat) (createOk : Bool) (otaSource : CharPtr)
      (code : List Event) :
      Reachable s → otaTaskExec env fuel otaSource = some code →
      Reachable (otaStart createOk code otaSource s)
  | create {s : System} (env : Env) (fuel : Nat) (createOk : Bool) (src : CString)
      (code : List Event) :
      Reachable s → s.caller = none → s._otaTask = none →
      otaTaskExec env fuel (some src) = some code →
      Reachable (otaStartCreate createOk code src s)
  | resume {s : System} : Reachable s → Reachable (otaStartResume s)
  | step {s : System} (i : Nat) : Reachable s → Reachable (s.stepTask i)

/-- A worker that has not yet executed `_otaTask = nullptr`. -/
def Task.holdsSlot (t : Task) : Bool :=
  t.pending.contains Event.otaTaskNull

/-- Number of workers that have not yet executed `_otaTask = nullptr`. -/
def System.slotHolders (s : System) : Nat :=
  s.tasks.countP Task.holdsSlot

/-- In a sequence of effects `vTaskDelete` can only be the last one. -/
def deleteOnlyLast : List Event → Bool
  | [] => true
  | e :: rest => (decide (e ≠ Event.vTaskDelete) || decide (rest = [])) && deleteOnlyLast rest

/-! ## Classes of events -/

/-- An invocation of the fetch/apply operation. -/
def Event.isOta : Event → Bool
  | Event.esp_https_ota _ _ _ _ _ => true
  | _ => false

/-- A timed wait. -/
def Event.isDelay : Event → Bool
  | Event.vTaskDelay _ => true
  | _ => false

/-- A restart request. -/
def Event.isRestart : Event → Bool
  | Event.espRestart _ _ => true
  | _ => false

/-- A Telegram alert. -/
def Event.isAlert : Event → Bool
  | Event.tgSend _ => true
  | _ => false

/-- An event on the notification bus. -/
def Event.isBus : Event → Bool
  | Event.eventLoopPostSystem _ => true
  | _ => false

/-- The events the loop body can produce. -/
def Event.inLoop : Event → Bool
  | Event.rlog _ => true
  | Event.esp_https_ota _ _ _ _ _ => true
  | Event.vTaskDelay _ => true
  | _ => false

/-- The events a test harness observes: alerts, bus events, restart requests. -/
def Event.observable (e : Event) : Bool :=
  e.isAlert || e.isBus || e.isRestart

/-- Whether an event reads the characters of the buffer `p`. -/
def Event.reads (p : CString) : Event → Bool
  | Event.tgSend (TgMessage.CONFIG_MESSAGE_TG_OTA q) => decide (q = p)
  | Event.rlog (LogLine.startOfUpgrade q _) => decide (q = p)
  | Event.esp_https_ota q _ _ _ _ => decide (q = p)
  | _ => false

/-! ## Concrete runs -/

/-- The source of Scenario A, "http://x/fw.bin", as character codes. -/
def fwSource : CString :=
  { addr := 4096, chars := [104, 116, 116, 112, 58, 47, 47, 120, 47, 102, 119, 46, 98, 105, 110] }

/-- A second source buffer. -/
def fwSource2 : CString :=
  { addr := 8192, chars := [104, 116, 116, 112, 58, 47, 47, 121, 47, 102, 119, 46, 98, 105, 110] }

/-- The empty string in a buffer of its own: a non-null pointer to a NUL. -/
def emptySource : CString :=
  { addr := 4096, chars := [] }

/-- Three attempts, Telegram alerts compiled in. -/
def cfg3 : Config :=
  { CONFIG_OTA_DELAY := 3000, CONFIG_OTA_WATCHDOG := 600, CONFIG_OTA_ATTEMPTS := 3,
    telegram := true }

/-- Scenario C: the operation fails on every call (`ESP_FAIL`), three attempts. -/
def envAlwaysFail : Env :=
  { cfg := cfg3, esp_https_ota := fun _ => -1, esp_timer_create := true,
    uninitHWatchdog := false, esp_timer_is_active := true, espRestartReturns := false }

/-- Scenario A: the operation succeeds on the first call. -/
def envFirstOk : Env :=
  { cfg := cfg3, esp_https_ota := fun _ => 0, esp_timer_create := true,
    uninitHWatchdog := false, esp_timer_is_active := true, espRestartReturns := false }

/-- Scenario B: the operation fails twice, then succeeds. -/
def envFailTwice : Env :=
  { cfg := cfg3, esp_https_ota := fun i => if i < 3 then -1 else 0, esp_timer_create := true,
    uninitHWatchdog := false, esp_timer_is_active := true, espRestartReturns := false }

/-- A maximum of 256 attempts and an operation that fails on every call. -/
def envAlwaysFail256 : Env :=
  { cfg := { CONFIG_OTA_DELAY := 3000, CONFIG_OTA_WATCHDOG := 600, CONFIG_OTA_ATTEMPTS := 256,
             telegram := true },
    esp_https_ota := fun _ => -1, esp_timer_create := true,
    uninitHWatchdog := false, esp_timer_is_active := true, espRestartReturns := false }

/-- The effects of the worker of Scenario C on `fwSource`. -/
def raceCode : List Event :=
  (otaTaskExec envAlwaysFail 3 (some fwSource)).getD []

/-- The effects of a worker of Scenario C on `fwSource2`. -/
def raceCode2 : List Event :=
  (otaTaskExec envAlwaysFail 3 (some fwSource2)).getD []

/-- From boot: `otaStart(fwSource)` is accepted, then the worker performs its first 21
effects, the last of which is `_otaTask = nullptr` (line 88). -/
def raceState : System :=
  System.stepsTask 0 21 (otaStart true raceCode (some fwSource) System.boot)

/-- No settle delay, one attempt, an operation that fails at once, no Telegram. -/
def envFailAtOnce : Env :=
  { cfg := { CONFIG_OTA_DELAY := 0, CONFIG_OTA_WATCHDOG := 600, CONFIG_OTA_ATTEMPTS := 1,
             telegram := false },
    esp_https_ota := fun _ => -1, esp_timer_create := true,
    uninitHWatchdog := false, esp_timer_is_active := true, espRestartReturns := false }

/-- The effects of the worker of `envFailAtOnce` on `fwSource`: 16 of them. -/
def doubleFreeCode : List Event :=
  (otaTaskExec envFailAtOnce 1 (some fwSource)).getD []

/-- From boot: `otaStart(fwSource)` creates the worker (line 113), the worker runs
to its end (16 effects) before the caller goes on, then the caller executes
lines 114-120. -/
def doubleFreeState : System :=
  otaStartResume (System.stepsTask 0 16 (otaStartCreate true doubleFreeCode fwSource System.boot))

/-! ## The retry loop -/

theorem retryLoop_continue (env : Env) (src : CString) (fuel t c : Nat)
    (h1 : env.esp_https_ota (c + 1) ≠ ESP_OK)
    (h2 : (t + 1) % 256 < env.cfg.CONFIG_OTA_ATTEMPTS) :
    retryLoop env src (fuel + 1) t c =
      (retryLoop env src fuel ((t + 1) % 256) (c + 1)).map
        (fun r =>
          { r with
            events := loopBody env src ((t + 1) % 256) (env.esp_https_ota (c + 1)) ++ r.events }) := by
  simp only [retryLoop]
  rw [if_pos ⟨h1, h2⟩]

theorem retryLoop_stop (env : Env) (src : CString) (fuel t c : Nat)
    (h : env.esp_https_ota (c + 1) = ESP_OK ∨ ¬ (t + 1) % 256 < env.cfg.CONFIG_OTA_ATTEMPTS) :
    retryLoop env src (fuel + 1) t c =
      some { events := loopBody env src ((t + 1) % 256) (env.esp_https_ota (c + 1)),
             err := env.esp_https_ota (c + 1),
             tryUpdate := (t + 1) % 256,
             calls := c + 1 } := by
  simp only [retryLoop]
  rw [if_neg]
  rintro ⟨h1, h2⟩
  rcases h with h | h
  · exact h1 h
  · exact h h2

theorem loopBody_countP_isOta (env : Env) (src : CString) (t : Nat) (err : Int) :
    (loopBody env src t err).countP Event.isOta = 1 := by
  unfold loopBody
  split <;> simp [List.countP_cons, Event.isOta]

theorem loopBody_countP_isDelay (env : Env) (src : CString) (t : Nat) (err : Int) :
    (loopBody env src t err).countP Event.isDelay = if err = ESP_OK then 0 else 1 := by
  unfold loopBody
  split <;> simp [List.countP_cons, Event.isDelay]

theorem loopBody_inLoop (env : Env) (src : CString) (t : Nat) (err : Int) :
    ∀ e ∈ loopBody env src t err, e.inLoop = true := by
  unfold loopBody
  split <;> simp [Event.inLoop]

/-- The loop, described for an operation whose first `k - 1` invocations fail while
the counter stays below the maximum, and whose `k`-th invocation ends the loop. -/
theorem retryLoop_run (env : Env) (src : CString) (k : Nat)
    (hfail : ∀ i, 1 ≤ i → i < k → env.esp_https_ota i ≠ ESP_OK)
    (hcont : ∀ i, 1 ≤ i → i < k → i % 256 < env.cfg.CONFIG_OTA_ATTEMPTS)
    (hstop : env.esp_https_ota k = ESP_OK ∨ ¬ k % 256 < env.cfg.CONFIG_OTA_ATTEMPTS) :
    ∀ m c fuel, 1 ≤ m → c + m = k → m ≤ fuel →
      ∃ r, retryLoop env src fuel (c % 256) c = some r ∧ r.calls = k ∧
        r.err = env.esp_https_ota k ∧ r.tryUpdate = k % 256 ∧
        r.events.countP Event.isOta = m ∧
        r.events.countP Event.isDelay =
          (m - 1) + (if env.esp_https_ota k = ESP_OK then 0 else 1) ∧
        ∃ a, r.events = a ++ loopBody env src (k % 256) (env.esp_https_ota k) ∧
          a.countP Event.isOta = m - 1 := by
  intro m
  induction m with
  | zero => intro c fuel h; omega
  | succ m ih =>
    intro c fuel _ hk hfuel
    obtain ⟨fuel1, rfl⟩ : ∃ f, fuel = f + 1 := ⟨fuel - 1, by omega⟩
    have hmod : (c % 256 + 1) % 256 = (c + 1) % 256 := by omega
    rcases Nat.eq_zero_or_pos m with hm | hm
    · subst hm
      have hck : c + 1 = k := by omega
      subst hck
      rw [retryLoop_stop env src fuel1 (c % 256) c (by rw [hmod]; exact hstop)]
      refine ⟨_, rfl, rfl, rfl, hmod, ?_, ?_, [], ?_, ?_⟩
      · exact loopBody_countP_isOta _ _ _ _
      · simp [loopBody_countP_isDelay]
      · simp [hmod]
      · simp
    · have h1 : env.esp_https_ota (c + 1) ≠ ESP_OK := hfail (c + 1) (by omega) (by omega)
      have h2 : (c % 256 + 1) % 256 < env.cfg.CONFIG_OTA_ATTEMPTS := by
        rw [hmod]; exact hcont (c + 1) (by omega) (by omega)
      obtain ⟨r, hr, hcalls, herr, htry, hota, hdel, a, ha, hac⟩ :=
        ih (c + 1) fuel1 hm (by omega) (by omega)
      rw [retryLoop_continue env src fuel1 (c % 256) c h1 h2, hmod, hr]
      refine ⟨_, rfl, hcalls, herr, htry, ?_, ?_,
        loopBody env src ((c + 1) % 256) (env.esp_https_ota (c + 1)) ++ a, ?_, ?_⟩
      · simp [List.countP_append, loopBody_countP_isOta, hota]; omega
      · simp [List.countP_append, loopBody_countP_isDelay, hdel, h1]; omega
      · simp [ha]
      · simp [List.countP_append, loopBody_countP_isOta, hac]; omega

/-- The loop produces only log lines, invocations of the operation and waits. -/
theorem retryLoop_inLoop (env : Env) (src : CString) :
    ∀ fuel t c r, retryLoop env src fuel t c = some r → ∀ e ∈ r.events, e.inLoop = true := by
  intro fuel
  induction fuel with
  | zero => intro t c r h; simp [retryLoop] at h
  | succ fuel ih =>
    intro t c r h
    simp only [retryLoop] at h
    split at h
    · cases hrec : retryLoop env src fuel ((t + 1) % 256) (c + 1) with
      | none => simp [hrec] at h
      | some r1 =>
        simp [hrec] at h
        subst h
        intro e he
        simp only [List.mem_append] at he
        rcases he with he | he
        · exact loopBody_inLoop _ _ _ _ e he
        · exact ih _ _ r1 hrec e he
    · simp at h
      subst h
      exact loopBody_inLoop _ _ _ _

/-- With a maximum of at most 255 the loop ends whatever the operation answers, within
`CONFIG_OTA_ATTEMPTS` iterations (one iteration when the maximum is 0). -/
theorem retryLoop_terminates (env : Env) (src : CString)
    (hN : env.cfg.CONFIG_OTA_ATTEMPTS ≤ 255) :
    ∀ fuel t c, t ≤ 254 → 1 ≤ fuel → env.cfg.CONFIG_OTA_ATTEMPTS - t ≤ fuel →
      ∃ r, retryLoop env src fuel t c = some r := by
  intro fuel
  induction fuel with
  | zero => intro t c _ h; omega
  | succ fuel ih =>
    intro t c ht _ hfuel
    have hmod : (t + 1) % 256 = t + 1 := Nat.mod_eq_of_lt (by omega)
    by_cases hcont : env.esp_https_ota (c + 1) ≠ ESP_OK ∧
        (t + 1) % 256 < env.cfg.CONFIG_OTA_ATTEMPTS
    · rw [retryLoop_continue env src fuel t c hcont.1 hcont.2, hmod]
      have h2 := hcont.2
      rw [hmod] at h2
      obtain ⟨r, hr⟩ := ih (t + 1) (c + 1) (by omega) (by omega) (by omega)
      rw [hr]
      exact ⟨_, rfl⟩
    · refine ⟨_, retryLoop_stop env src fuel t c ?_⟩
      by_cases h1 : env.esp_https_ota (c + 1) = ESP_OK
      · exact Or.inl h1
      · exact Or.inr (fun h2 => hcont ⟨h1, h2⟩)

/-- With a maximum above 255 and an operation that always fails the loop never ends:
the 8-bit counter stays below the maximum. -/
theorem retryLoop_diverges (env : Env) (src : CString)
    (hfail : ∀ i, env.esp_https_ota i ≠ ESP_OK) (hN : 256 ≤ env.cfg.CONFIG_OTA_ATTEMPTS) :
    ∀ fuel t c, retryLoop env src fuel t c = none := by
  intro fuel
  induction fuel with
  | zero => intro t c; rfl
  | succ fuel ih =>
    intro t c
    have h2 : (t + 1) % 256 < env.cfg.CONFIG_OTA_ATTEMPTS := by
      have := Nat.mod_lt (t + 1) (show 0 < 256 by decide)
      omega
    rw [retryLoop_continue env src fuel t c (hfail _) h2, ih]
    rfl

/-! ## The worker as a whole -/

theorem otaTaskExec_of_loop (env : Env) (src : CString) (fuel : Nat) (r : LoopResult)
    (h : retryLoop env src fuel 0 0 = some r) :
    otaTaskExec env fuel (some src) =
      some (startEvents env src ++ r.events ++ finishEvents env src r.err) := by
  simp [otaTaskExec, h]

theorem countP_eq_zero_of_inLoop (p : Event → Bool)
    (hp : ∀ e : Event, e.inLoop = true → p e = false) (l : List Event)
    (hl : ∀ e ∈ l, e.inLoop = true) : l.countP p = 0 := by
  rw [List.countP_eq_zero]
  intro e he
  simp [hp e (hl e he)]

theorem filter_eq_nil_of_inLoop (p : Event → Bool)
    (hp : ∀ e : Event, e.inLoop = true → p e = false) (l : List Event)
    (hl : ∀ e ∈ l, e.inLoop = true) : l.filter p = [] := by
  rw [List.filter_eq_nil_iff]
  intro e he
  simp [hp e (hl e he)]

theorem inLoop_not_isAlert (e : Event) (h : e.inLoop = true) : e.isAlert = false := by
  cases e <;> simp_all [Event.inLoop, Event.isAlert]

theorem inLoop_not_isBus (e : Event) (h : e.inLoop = true) : e.isBus = false := by
  cases e <;> simp_all [Event.inLoop, Event.isBus]

theorem inLoop_not_isRestart (e : Event) (h : e.inLoop = true) : e.isRestart = false := by
  cases e <;> simp_all [Event.inLoop, Event.isRestart]

theorem startEvents_countP_isOta (env : Env) (src : CString) :
    (startEvents env src).countP Event.isOta = 0 := by
  unfold startEvents
  cases env.cfg.telegram <;> cases env.esp_timer_create <;> simp [List.countP_cons, Event.isOta]

theorem finishEvents_countP_isOta (env : Env) (src : CString) (err : Int) :
    (finishEvents env src err).countP Event.isOta = 0 := by
  unfold finishEvents stopTimerEvents exitEvents hWatchdogNonNull
  cases env.cfg.telegram <;> cases env.esp_timer_create <;> cases env.uninitHWatchdog <;>
    cases env.esp_timer_is_active <;> cases env.espRestartReturns <;>
    by_cases h : err = ESP_OK <;> simp [List.countP_cons, Event.isOta, h]

theorem startEvents_filter_isAlert (env : Env) (src : CString) :
    (startEvents env src).filter Event.isAlert =
      if env.cfg.telegram then [Event.tgSend (TgMessage.CONFIG_MESSAGE_TG_OTA src)] else [] := by
  unfold startEvents
  cases env.cfg.telegram <;> cases env.esp_timer_create <;> simp [Event.isAlert]

theorem finishEvents_filter_isAlert (env : Env) (src : CString) (err : Int) :
    (finishEvents env src err).filter Event.isAlert =
      if env.cfg.telegram then
        (if err = ESP_OK then [Event.tgSend (TgMessage.CONFIG_MESSAGE_TG_OTA_OK err)]
         else [Event.tgSend (TgMessage.CONFIG_MESSAGE_TG_OTA_FAILED err)])
      else [] := by
  unfold finishEvents stopTimerEvents exitEvents hWatchdogNonNull
  cases env.cfg.telegram <;> cases env.esp_timer_create <;> cases env.uninitHWatchdog <;>
    cases env.esp_timer_is_active <;> cases env.espRestartReturns <;>
    by_cases h : err = ESP_OK <;> simp [Event.isAlert, h]

/-! ## C2: retry bound -/

/-- C2, as stated, fails: with a configured maximum of 256 and an operation that fails
on every call the retry loop never ends, whatever the number of iterations allowed. -/
theorem C2_counterexample :
    1 ≤ envAlwaysFail256.cfg.CONFIG_OTA_ATTEMPTS ∧
    (∀ i, envAlwaysFail256.esp_https_ota i ≠ ESP_OK) ∧
    ¬ ∃ fuel r, retryLoop envAlwaysFail256 fwSource fuel 0 0 = some r := by
  refine ⟨by decide, fun i => by simp [envAlwaysFail256, ESP_OK], ?_⟩
  rintro ⟨fuel, r, h⟩
  rw [retryLoop_diverges envAlwaysFail256 fwSource
    (fun i => by simp [envAlwaysFail256, ESP_OK]) (by decide)] at h
  exact Option.noConfusion h

/-- C2 (amended): for a configured maximum N with 1 ≤ N ≤ 255 (the range of the 8-bit
counter `tryUpdate`) and an operation that fails on every call, the loop ends after
exactly N invocations, `err` after the loop is the code returned by the N-th
invocation, and the alerts of the whole run are the start alert and the failure
alert carrying that code (none when Telegram is compiled out). -/
theorem C2_retry_bound (env : Env) (src : CString) (fuel : Nat)
    (hN1 : 1 ≤ env.cfg.CONFIG_OTA_ATTEMPTS) (hN : env.cfg.CONFIG_OTA_ATTEMPTS ≤ 255)
    (hfail : ∀ i, env.esp_https_ota i ≠ ESP_OK)
    (hfuel : env.cfg.CONFIG_OTA_ATTEMPTS ≤ fuel) :
    ∃ r t, retryLoop env src fuel 0 0 = some r ∧
      r.calls = env.cfg.CONFIG_OTA_ATTEMPTS ∧
      r.events.countP Event.isOta = env.cfg.CONFIG_OTA_ATTEMPTS ∧
      r.err = env.esp_https_ota env.cfg.CONFIG_OTA_ATTEMPTS ∧
      otaTaskExec env fuel (some src) = some t ∧
      t.countP Event.isOta = env.cfg.CONFIG_OTA_ATTEMPTS ∧
      t.filter Event.isAlert =
        (if env.cfg.telegram then
          [Event.tgSend (TgMessage.CONFIG_MESSAGE_TG_OTA src),
           Event.tgSend (TgMessage.CONFIG_MESSAGE_TG_OTA_FAILED
             (env.esp_https_ota env.cfg.CONFIG_OTA_ATTEMPTS))]
         else []) := by
  obtain ⟨r, hr, hcalls, herr, -, hota, -, -⟩ :=
    retryLoop_run env src env.cfg.CONFIG_OTA_ATTEMPTS (fun i _ _ => hfail i)
      (fun i _ hi => by rw [Nat.mod_eq_of_lt (by omega)]; exact hi)
      (Or.inr (by rw [Nat.mod_eq_of_lt (by omega)]; exact lt_irrefl _))
      env.cfg.CONFIG_OTA_ATTEMPTS 0 fuel hN1 (by omega) hfuel
  have hloop := retryLoop_inLoop env src fuel 0 0 r hr
  refine ⟨r, _, hr, hcalls, hota, herr, otaTaskExec_of_loop env src fuel r hr, ?_, ?_⟩
  · simp [List.countP_append, startEvents_countP_isOta, finishEvents_countP_isOta, hota]
  · have hne : ¬ env.esp_https_ota env.cfg.CONFIG_OTA_ATTEMPTS = ESP_OK := hfail _
    simp only [List.filter_append, startEvents_filter_isAlert, finishEvents_filter_isAlert,
      filter_eq_nil_of_inLoop _ inLoop_not_isAlert _ hloop, herr]
    cases env.cfg.telegram <;> simp [hne]

/-- Witness of C2 (amended): Scenario C, three attempts, always failing. -/
theorem C2_retry_bound_witness :
    ∃ r t, retryLoop envAlwaysFail fwSource 3 0 0 = some r ∧
      r.calls = envAlwaysFail.cfg.CONFIG_OTA_ATTEMPTS ∧
      r.events.countP Event.isOta = envAlwaysFail.cfg.CONFIG_OTA_ATTEMPTS ∧
      r.err = envAlwaysFail.esp_https_ota envAlwaysFail.cfg.CONFIG_OTA_ATTEMPTS ∧
      otaTaskExec envAlwaysFail 3 (some fwSource) = some t ∧
      t.countP Event.isOta = envAlwaysFail.cfg.CONFIG_OTA_ATTEMPTS ∧
      t.filter Event.isAlert =
        (if envAlwaysFail.cfg.telegram then
          [Event.tgSend (TgMessage.CONFIG_MESSAGE_TG_OTA fwSource),
           Event.tgSend (TgMessage.CONFIG_MESSAGE_TG_OTA_FAILED
             (envAlwaysFail.esp_https_ota envAlwaysFail.cfg.CONFIG_OTA_ATTEMPTS))]
         else []) :=
  C2_retry_bound envAlwaysFail fwSource 3 (by decide) (by decide)
    (fun i => by simp [envAlwaysFail, ESP_OK]) (by decide)

/-! ## C3: early success -/

/-- C3: for every configured maximum N and every k with 1 ≤ k ≤ N, if invocations
1..k-1 fail and invocation k succeeds, the loop ends (given at least k iterations of
fuel), the operation is invoked exactly k times in the whole run, no invocation
follows the successful one, and the remembered result is `ESP_OK`. -/
theorem C3_early_success (env : Env) (src : CString) (k fuel : Nat)
    (hk : 1 ≤ k) (hkN : k ≤ env.cfg.CONFIG_OTA_ATTEMPTS)
    (hfail : ∀ i, 1 ≤ i → i < k → env.esp_https_ota i ≠ ESP_OK)
    (hok : env.esp_https_ota k = ESP_OK) (hfuel : k ≤ fuel) :
    ∃ r t, retryLoop env src fuel 0 0 = some r ∧ r.calls = k ∧ r.err = ESP_OK ∧
      r.events.countP Event.isOta = k ∧
      otaTaskExec env fuel (some src) = some t ∧
      t.countP Event.isOta = k ∧
      ∃ a b, t = a ++ Event.esp_https_ota src false true false ESP_OK :: b ∧
        a.countP Event.isOta = k - 1 ∧ b.countP Event.isOta = 0 := by
  obtain ⟨r, hr, hcalls, herr, -, hota, -, a0, ha0, ha0c⟩ :=
    retryLoop_run env src k hfail
      (fun i _ hi => lt_of_le_of_lt (Nat.mod_le i 256) (lt_of_lt_of_le hi hkN))
      (Or.inl hok) k 0 fuel hk (by omega) hfuel
  refine ⟨r, _, hr, hcalls, herr.trans hok, hota, otaTaskExec_of_loop env src fuel r hr, ?_,
    startEvents env src ++ a0 ++ [Event.rlog (LogLine.startOfUpgrade src (k % 256))],
    [Event.rlog LogLine.upgradeCompleted] ++ finishEvents env src r.err, ?_, ?_, ?_⟩
  · simp [List.countP_append, startEvents_countP_isOta, finishEvents_countP_isOta, hota]
  · rw [ha0, hok]
    simp [loopBody]
  · simp [List.countP_append, List.countP_cons, startEvents_countP_isOta, ha0c, Event.isOta]
  · simp [List.countP_append, List.countP_cons, finishEvents_countP_isOta, Event.isOta]

/-- Witness of C3: Scenario B, two failures, then success on the third of three
attempts. -/
theorem C3_early_success_witness :
    ∃ r t, retryLoop envFailTwice fwSource 3 0 0 = some r ∧ r.calls = 3 ∧ r.err = ESP_OK ∧
      r.events.countP Event.isOta = 3 ∧
      otaTaskExec envFailTwice 3 (some fwSource) = some t ∧
      t.countP Event.isOta = 3 ∧
      ∃ a b, t = a ++ Event.esp_https_ota fwSource false true false ESP_OK :: b ∧
        a.countP Event.isOta = 3 - 1 ∧ b.countP Event.isOta = 0 :=
  C3_early_success envFailTwice fwSource 3 3 (by decide) (by decide)
    (fun i _ hi => by simp [envFailTwice, ESP_OK, hi]) (by decide) (by decide)

/-! ## C9: waits in the retry loop -/

/-- C9, as stated, fails: with three attempts that all fail the loop makes three
invocations and waits three times, not two; its last effect is a wait. -/
theorem C9_counterexample :
    (retryLoop envAlwaysFail fwSource 3 0 0).map
        (fun r => (r.calls, r.events.countP Event.isDelay, r.events.getLast?)) =
      some (3, 3, some (Event.vTaskDelay 3000)) ∧
    envAlwaysFail.cfg.CONFIG_OTA_ATTEMPTS - 1 = 2 := by
  decide

/-- C9 (amended): the loop waits `CONFIG_OTA_DELAY` after every failed invocation,
the last one included. If invocations 1..k-1 fail and invocation k ends the loop,
either by succeeding (k ≤ N) or by failing as the N-th (k = N ≤ 255), then the loop
waits k - 1 times in the first case and k = N times in the second, where the wait
is its last effect. -/
theorem C9_delays (env : Env) (src : CString) (k fuel : Nat) (hk : 1 ≤ k)
    (hfail : ∀ i, 1 ≤ i → i < k → env.esp_https_ota i ≠ ESP_OK)
    (hlast : (env.esp_https_ota k = ESP_OK ∧ k ≤ env.cfg.CONFIG_OTA_ATTEMPTS) ∨
      (env.esp_https_ota k ≠ ESP_OK ∧ k = env.cfg.CONFIG_OTA_ATTEMPTS ∧ k ≤ 255))
    (hfuel : k ≤ fuel) :
    ∃ r, retryLoop env src fuel 0 0 = some r ∧ r.calls = k ∧
      r.events.countP Event.isDelay = (if env.esp_https_ota k = ESP_OK then k - 1 else k) ∧
      (env.esp_https_ota k ≠ ESP_OK →
        r.events.getLast? = some (Event.vTaskDelay env.cfg.CONFIG_OTA_DELAY)) := by
  have hcont : ∀ i, 1 ≤ i → i < k → i % 256 < env.cfg.CONFIG_OTA_ATTEMPTS := by
    intro i _ hi
    have := Nat.mod_le i 256
    rcases hlast with ⟨_, h⟩ | ⟨_, h, _⟩ <;> omega
  have hstop : env.esp_https_ota k = ESP_OK ∨ ¬ k % 256 < env.cfg.CONFIG_OTA_ATTEMPTS := by
    rcases hlast with ⟨h, _⟩ | ⟨_, h, h255⟩
    · exact Or.inl h
    · right
      rw [Nat.mod_eq_of_lt (by omega)]
      omega
  obtain ⟨r, hr, hcalls, -, -, -, hdel, a0, ha0, -⟩ :=
    retryLoop_run env src k hfail hcont hstop k 0 fuel hk (by omega) hfuel
  refine ⟨r, hr, hcalls, ?_, ?_⟩
  · rw [hdel]
    split <;> omega
  · intro hne
    rw [ha0]
    simp [loopBody, hne]

/-- Witness of C9 (amended): three failing attempts out of three. -/
theorem C9_delays_witness :
    ∃ r, retryLoop envAlwaysFail fwSource 3 0 0 = some r ∧ r.calls = 3 ∧
      r.events.countP Event.isDelay = (if envAlwaysFail.esp_https_ota 3 = ESP_OK then 3 - 1 else 3) ∧
      (envAlwaysFail.esp_https_ota 3 ≠ ESP_OK →
        r.events.getLast? = some (Event.vTaskDelay envAlwaysFail.cfg.CONFIG_OTA_DELAY)) :=
  C9_delays envAlwaysFail fwSource 3 3 (by decide)
    (fun i _ _ => by simp [envAlwaysFail, ESP_OK])
    (Or.inr ⟨by decide, by decide, by decide⟩) (by decide)

/-! ## C4: suspend / resume -/

theorem inLoop_not_observable (e : Event) (h : e.inLoop = true) : e.observable = false := by
  simp [Event.observable, inLoop_not_isAlert e h, inLoop_not_isBus e h,
    inLoop_not_isRestart e h]

theorem startEvents_filter_isBus (env : Env) (src : CString) :
    (startEvents env src).filter Event.isBus =
      [Event.eventLoopPostSystem BusValue.RE_SYS_SET] := by
  unfold startEvents
  cases env.cfg.telegram <;> cases env.esp_timer_create <;> simp [Event.isBus]

theorem finishEvents_filter_isBus (env : Env) (src : CString) (err : Int) :
    (finishEvents env src err).filter Event.isBus =
      Event.eventLoopPostSystem BusValue.RE_SYS_CLEAR ::
        (if err = ESP_OK ∧ env.espRestartReturns = false then []
         else [Event.eventLoopPostSystem BusValue.RE_SYS_CLEAR]) := by
  unfold finishEvents stopTimerEvents exitEvents hWatchdogNonNull
  cases env.cfg.telegram <;> cases env.esp_timer_create <;> cases env.uninitHWatchdog <;>
    cases env.esp_timer_is_active <;> cases env.espRestartReturns <;>
    by_cases h : err = ESP_OK <;> simp [Event.isBus, h]

/-- C4, as stated, fails: in Scenario C (three failing attempts) the worker posts one
`RE_SYS_SET` and two `RE_SYS_CLEAR`, the one of line 74 and the one of line 103. -/
theorem C4_counterexample :
    (otaTaskExec envAlwaysFail 3 (some fwSource)).map
        (fun t => (t.count (Event.eventLoopPostSystem BusValue.RE_SYS_SET),
                   t.count (Event.eventLoopPostSystem BusValue.RE_SYS_CLEAR),
                   t.filter Event.isBus)) =
      some (1, 2, [Event.eventLoopPostSystem BusValue.RE_SYS_SET,
                   Event.eventLoopPostSystem BusValue.RE_SYS_CLEAR,
                   Event.eventLoopPostSystem BusValue.RE_SYS_CLEAR]) := by
  decide

/-- C4 (amended): for every run with a non-null source that leaves the retry loop
with result `r`, the bus events of the whole run are one `RE_SYS_SET`, then the
`RE_SYS_CLEAR` of line 74, then the `RE_SYS_CLEAR` of line 103 whenever control gets
there: always after a failure, and after a success when `espRestart` returns. -/
theorem C4_suspend_resume (env : Env) (src : CString) (fuel : Nat) (r : LoopResult)
    (h : retryLoop env src fuel 0 0 = some r) :
    ∃ t, otaTaskExec env fuel (some src) = some t ∧
      t.filter Event.isBus =
        [Event.eventLoopPostSystem BusValue.RE_SYS_SET,
         Event.eventLoopPostSystem BusValue.RE_SYS_CLEAR] ++
        (if r.err = ESP_OK ∧ env.espRestartReturns = false then []
         else [Event.eventLoopPostSystem BusValue.RE_SYS_CLEAR]) := by
  have hloop := retryLoop_inLoop env src fuel 0 0 r h
  refine ⟨_, otaTaskExec_of_loop env src fuel r h, ?_⟩
  simp only [List.filter_append, startEvents_filter_isBus, finishEvents_filter_isBus,
    filter_eq_nil_of_inLoop _ inLoop_not_isBus _ hloop]
  simp

/-- Witness of C4 (amended): Scenario A, success on the first call. -/
theorem C4_suspend_resume_witness :
    ∃ t, otaTaskExec envFirstOk 1 (some fwSource) = some t ∧
      t.filter Event.isBus =
        [Event.eventLoopPostSystem BusValue.RE_SYS_SET,
         Event.eventLoopPostSystem BusValue.RE_SYS_CLEAR] ++
        (if (0 : Int) = ESP_OK ∧ envFirstOk.espRestartReturns = false then []
         else [Event.eventLoopPostSystem BusValue.RE_SYS_CLEAR]) :=
  C4_suspend_resume envFirstOk fwSource 1
    { events := loopBody envFirstOk fwSource 1 0, err := 0, tryUpdate := 1, calls := 1 } rfl

/-! ## C6, C7: restart and the order of events -/

theorem startEvents_countP_isRestart (env : Env) (src : CString) :
    (startEvents env src).countP Event.isRestart = 0 := by
  unfold startEvents
  cases env.cfg.telegram <;> cases env.esp_timer_create <;>
    simp [List.countP_cons, Event.isRestart]

theorem stopTimerEvents_countP_isRestart (env : Env) :
    (stopTimerEvents env).countP Event.isRestart = 0 := by
  unfold stopTimerEvents hWatchdogNonNull
  cases env.esp_timer_create <;> cases env.uninitHWatchdog <;>
    cases env.esp_timer_is_active <;> simp [List.countP_cons, Event.isRestart]

theorem stopTimerEvents_filter_isAlert (env : Env) :
    (stopTimerEvents env).filter Event.isAlert = [] := by
  unfold stopTimerEvents hWatchdogNonNull
  cases env.esp_timer_create <;> cases env.uninitHWatchdog <;>
    cases env.esp_timer_is_active <;> simp [Event.isAlert]

theorem stopTimerEvents_filter_observable (env : Env) :
    (stopTimerEvents env).filter Event.observable = [] := by
  unfold stopTimerEvents hWatchdogNonNull
  cases env.esp_timer_create <;> cases env.uninitHWatchdog <;>
    cases env.esp_timer_is_active <;>
    simp [Event.observable, Event.isAlert, Event.isBus, Event.isRestart]

theorem startEvents_filter_observable (env : Env) (src : CString) :
    (startEvents env src).filter Event.observable =
      (if env.cfg.telegram then [Event.tgSend (TgMessage.CONFIG_MESSAGE_TG_OTA src)] else []) ++
      [Event.eventLoopPostSystem BusValue.RE_SYS_SET] := by
  unfold startEvents
  cases env.cfg.telegram <;> cases env.esp_timer_create <;>
    simp [Event.observable, Event.isAlert, Event.isBus, Event.isRestart]

/-- After a success the code of lines 73-105 is: resume, success alert, release,
timer, then the restart request, then what follows if `espRestart` returns. -/
theorem finishEvents_ok (env : Env) (src : CString) (err : Int) (h : err = ESP_OK) :
    finishEvents env src err =
      ([Event.eventLoopPostSystem BusValue.RE_SYS_CLEAR] ++
        (if env.cfg.telegram then [Event.tgSend (TgMessage.CONFIG_MESSAGE_TG_OTA_OK ESP_OK)]
         else []) ++
        [Event.free src, Event.otaTaskNull] ++ stopTimerEvents env) ++
      Event.espRestart ResetReason.RR_OTA env.cfg.CONFIG_OTA_DELAY ::
        (if env.espRestartReturns then exitEvents else []) := by
  subst h
  unfold finishEvents
  cases env.cfg.telegram <;> simp

/-- After a failure the code of lines 73-105 is: resume, failure alert, release,
timer, exit. -/
theorem finishEvents_failed (env : Env) (src : CString) (err : Int) (h : err ≠ ESP_OK) :
    finishEvents env src err =
      ([Event.eventLoopPostSystem BusValue.RE_SYS_CLEAR] ++
        (if env.cfg.telegram then [Event.tgSend (TgMessage.CONFIG_MESSAGE_TG_OTA_FAILED err)]
         else []) ++
        [Event.free src, Event.otaTaskNull] ++ stopTimerEvents env) ++ exitEvents := by
  unfold finishEvents
  cases env.cfg.telegram <;> simp [h]

theorem slotAfter_none (es : List Event) : slotAfter none es = none := by
  induction es with
  | nil => rfl
  | cons e es ih =>
    have : e.applySlot none = none := by unfold Event.applySlot; split <;> rfl
    simpa [slotAfter, this] using ih

theorem slotAfter_append_null (slot : Option Nat) (a b : List Event) :
    slotAfter slot (a ++ Event.otaTaskNull :: b) = none := by
  have h : slotAfter slot (a ++ Event.otaTaskNull :: b) = slotAfter none b := by
    simp [slotAfter, Event.applySlot]
  rw [h]
  exact slotAfter_none b

/-- C6: for every run with a non-null source that leaves the retry loop with result
`r`: if `r.err` is `ESP_OK` the run contains exactly one restart request,
`espRestart(RR_OTA, CONFIG_OTA_DELAY)`, issued after the `RE_SYS_CLEAR` of line 74 and
after every alert of the run (the success alert when Telegram is compiled in); if
`r.err` is a failure the run contains no restart request. -/
theorem C6_restart_only_on_success (env : Env) (src : CString) (fuel : Nat) (r : LoopResult)
    (h : retryLoop env src fuel 0 0 = some r) :
    ∃ t, otaTaskExec env fuel (some src) = some t ∧
      (r.err = ESP_OK →
        ∃ a b, t = a ++ Event.espRestart ResetReason.RR_OTA env.cfg.CONFIG_OTA_DELAY :: b ∧
          a.countP Event.isRestart = 0 ∧ b.countP Event.isRestart = 0 ∧
          Event.eventLoopPostSystem BusValue.RE_SYS_CLEAR ∈ a ∧
          a.filter Event.isAlert = t.filter Event.isAlert ∧
          (env.cfg.telegram = true →
            Event.tgSend (TgMessage.CONFIG_MESSAGE_TG_OTA_OK ESP_OK) ∈ a)) ∧
      (r.err ≠ ESP_OK → t.countP Event.isRestart = 0) := by
  have hloop := retryLoop_inLoop env src fuel 0 0 r h
  have hl0 := countP_eq_zero_of_inLoop _ inLoop_not_isRestart _ hloop
  refine ⟨_, otaTaskExec_of_loop env src fuel r h, ?_, ?_⟩
  · intro hok
    refine ⟨startEvents env src ++ r.events ++
        ([Event.eventLoopPostSystem BusValue.RE_SYS_CLEAR] ++
          (if env.cfg.telegram then [Event.tgSend (TgMessage.CONFIG_MESSAGE_TG_OTA_OK ESP_OK)]
           else []) ++
          [Event.free src, Event.otaTaskNull] ++ stopTimerEvents env),
      (if env.espRestartReturns then exitEvents else []), ?_, ?_, ?_, ?_, ?_, ?_⟩
    · rw [finishEvents_ok env src r.err hok]
      simp [List.append_assoc]
    · simp only [List.countP_append, startEvents_countP_isRestart, hl0,
        stopTimerEvents_countP_isRestart]
      cases env.cfg.telegram <;> simp [List.countP_cons, Event.isRestart]
    · cases env.espRestartReturns <;> simp [exitEvents, List.countP_cons, Event.isRestart]
    · simp
    · rw [finishEvents_ok env src r.err hok]
      simp only [List.filter_append, List.filter_cons, stopTimerEvents_filter_isAlert]
      cases env.espRestartReturns <;> cases env.cfg.telegram <;>
        simp [exitEvents, Event.isAlert]
    · intro htg
      simp [htg]
  · intro hne
    rw [finishEvents_failed env src r.err hne]
    simp only [List.countP_append, startEvents_countP_isRestart, hl0,
      stopTimerEvents_countP_isRestart]
    cases env.cfg.telegram <;> simp [exitEvents, List.countP_cons, Event.isRestart]

/-- Witness of C6: Scenario A, success on the first call. -/
theorem C6_restart_only_on_success_witness :
    ∃ t, otaTaskExec envFirstOk 1 (some fwSource) = some t ∧
      ((0 : Int) = ESP_OK →
        ∃ a b, t = a ++
            Event.espRestart ResetReason.RR_OTA envFirstOk.cfg.CONFIG_OTA_DELAY :: b ∧
          a.countP Event.isRestart = 0 ∧ b.countP Event.isRestart = 0 ∧
          Event.eventLoopPostSystem BusValue.RE_SYS_CLEAR ∈ a ∧
          a.filter Event.isAlert = t.filter Event.isAlert ∧
          (envFirstOk.cfg.telegram = true →
            Event.tgSend (TgMessage.CONFIG_MESSAGE_TG_OTA_OK ESP_OK) ∈ a)) ∧
      ((0 : Int) ≠ ESP_OK → t.countP Event.isRestart = 0) :=
  C6_restart_only_on_success envFirstOk fwSource 1
    { events := loopBody envFirstOk fwSource 1 0, err := 0, tryUpdate := 1, calls := 1 } rfl

/-- C7, as stated, fails: in Scenario A the worker posts `RE_SYS_CLEAR` (line 74)
before it sends the success alert (line 78), not after. -/
theorem C7_counterexample :
    (otaTaskExec envFirstOk 1 (some fwSource)).map (fun t => t.filter Event.observable) =
      some [Event.tgSend (TgMessage.CONFIG_MESSAGE_TG_OTA fwSource),
            Event.eventLoopPostSystem BusValue.RE_SYS_SET,
            Event.eventLoopPostSystem BusValue.RE_SYS_CLEAR,
            Event.tgSend (TgMessage.CONFIG_MESSAGE_TG_OTA_OK 0),
            Event.espRestart ResetReason.RR_OTA 3000] ∧
    (otaTaskExec envFirstOk 1 (some fwSource)).map (fun t => t.filter Event.observable) ≠
      some [Event.tgSend (TgMessage.CONFIG_MESSAGE_TG_OTA fwSource),
            Event.eventLoopPostSystem BusValue.RE_SYS_SET,
            Event.tgSend (TgMessage.CONFIG_MESSAGE_TG_OTA_OK 0),
            Event.eventLoopPostSystem BusValue.RE_SYS_CLEAR,
            Event.espRestart ResetReason.RR_OTA 3000] := by
  decide

/-- C7 (amended): for a non-null source and an operation that succeeds on the first
call, the alerts, bus events and restart requests of the worker are, in order: start
alert, `RE_SYS_SET`, `RE_SYS_CLEAR`, success alert, `espRestart(RR_OTA,
CONFIG_OTA_DELAY)` (the alerts only when Telegram is compiled in; one more
`RE_SYS_CLEAR` at the end if `espRestart` returns), and `_otaTask` is null when the
restart request, the first of the run, is issued. -/
theorem C7_scenario_A (env : Env) (src : CString) (fuel : Nat) (hfuel : 1 ≤ fuel)
    (hok : env.esp_https_ota 1 = ESP_OK) :
    ∃ t, otaTaskExec env fuel (some src) = some t ∧
      t.filter Event.observable =
        (if env.cfg.telegram then [Event.tgSend (TgMessage.CONFIG_MESSAGE_TG_OTA src)] else []) ++
        [Event.eventLoopPostSystem BusValue.RE_SYS_SET,
         Event.eventLoopPostSystem BusValue.RE_SYS_CLEAR] ++
        (if env.cfg.telegram then [Event.tgSend (TgMessage.CONFIG_MESSAGE_TG_OTA_OK ESP_OK)]
         else []) ++
        [Event.espRestart ResetReason.RR_OTA env.cfg.CONFIG_OTA_DELAY] ++
        (if env.espRestartReturns then [Event.eventLoopPostSystem BusValue.RE_SYS_CLEAR]
         else []) ∧
      ∃ a b, t = a ++ Event.espRestart ResetReason.RR_OTA env.cfg.CONFIG_OTA_DELAY :: b ∧
        a.countP Event.isRestart = 0 ∧ ∀ slot, slotAfter slot a = none := by
  obtain ⟨fuel1, rfl⟩ : ∃ f, fuel = f + 1 := ⟨fuel - 1, by omega⟩
  have hr := retryLoop_stop env src fuel1 0 0 (Or.inl hok)
  have hloop := retryLoop_inLoop env src _ 0 0 _ hr
  have hl0 := countP_eq_zero_of_inLoop _ inLoop_not_isRestart _ hloop
  have hlf := filter_eq_nil_of_inLoop _ inLoop_not_observable _ hloop
  refine ⟨_, otaTaskExec_of_loop env src _ _ hr, ?_, ?_⟩
  · rw [finishEvents_ok env src _ hok]
    simp only [List.filter_append, List.filter_cons, startEvents_filter_observable, hlf,
      stopTimerEvents_filter_observable]
    cases env.espRestartReturns <;> cases env.cfg.telegram <;>
      simp [exitEvents, Event.observable, Event.isAlert, Event.isBus, Event.isRestart]
  · refine ⟨startEvents env src ++ loopBody env src 1 (env.esp_https_ota 1) ++
        ([Event.eventLoopPostSystem BusValue.RE_SYS_CLEAR] ++
          (if env.cfg.telegram then [Event.tgSend (TgMessage.CONFIG_MESSAGE_TG_OTA_OK ESP_OK)]
           else []) ++ [Event.free src]) ++ Event.otaTaskNull :: stopTimerEvents env,
      (if env.espRestartReturns then exitEvents else []), ?_, ?_, ?_⟩
    · rw [finishEvents_ok env src _ hok]
      simp [List.append_assoc]
    · simp only [List.countP_append, List.countP_cons, startEvents_countP_isRestart,
        stopTimerEvents_countP_isRestart]
      have hl0b : (loopBody env src 1 (env.esp_https_ota 1)).countP Event.isRestart = 0 := hl0
      rw [hl0b]
      cases env.cfg.telegram <;> simp [List.countP_cons, Event.isRestart]
    · intro slot
      exact slotAfter_append_null slot _ _

/-- Witness of C7 (amended): Scenario A. -/
theorem C7_scenario_A_witness :
    ∃ t, otaTaskExec envFirstOk 1 (some fwSource) = some t ∧
      t.filter Event.observable =
        (if envFirstOk.cfg.telegram then [Event.tgSend (TgMessage.CONFIG_MESSAGE_TG_OTA fwSource)]
         else []) ++
        [Event.eventLoopPostSystem BusValue.RE_SYS_SET,
         Event.eventLoopPostSystem BusValue.RE_SYS_CLEAR] ++
        (if envFirstOk.cfg.telegram then [Event.tgSend (TgMessage.CONFIG_MESSAGE_TG_OTA_OK ESP_OK)]
         else []) ++
        [Event.espRestart ResetReason.RR_OTA envFirstOk.cfg.CONFIG_OTA_DELAY] ++
        (if envFirstOk.espRestartReturns then [Event.eventLoopPostSystem BusValue.RE_SYS_CLEAR]
         else []) ∧
      ∃ a b, t = a ++ Event.espRestart ResetReason.RR_OTA envFirstOk.cfg.CONFIG_OTA_DELAY :: b ∧
        a.countP Event.isRestart = 0 ∧ ∀ slot, slotAfter slot a = none :=
  C7_scenario_A envFirstOk fwSource 1 (by decide) (by decide)

/-! ## C10: the watchdog timer -/

theorem otaStart_null (createOk : Bool) (code : List Event) (s : System) :
    otaStart createOk code none s =
      { s with trace := s.trace ++ [Event.rlog LogLine.sourceNotSpecified] } := rfl

theorem otaStart_busy (createOk : Bool) (code : List Event) (src : CString) (s : System)
    (h : s._otaTask ≠ none) :
    otaStart createOk code (some src) s =
      { s with trace := s.trace ++ [Event.rlog LogLine.alreadyStarted, Event.free src] } := by
  simp [otaStart, h, System.emit]

theorem otaStart_createFailed (code : List Event) (src : CString) (s : System)
    (h : s._otaTask = none) :
    otaStart false code (some src) s =
      { s with trace := s.trace ++ [Event.rlog LogLine.taskCreateFailed, Event.free src] } := by
  simp [otaStart, otaStartAfterCreate, h, System.emit, xTaskCreatePinnedToCore]

theorem otaStart_created (code : List Event) (src : CString) (s : System)
    (h : s._otaTask = none) :
    otaStart true code (some src) s =
      { _otaTask := some s.nextHandle,
        tasks := s.tasks ++ [{ handle := s.nextHandle, pending := code }],
        nextHandle := s.nextHandle + 1,
        trace := s.trace ++ [Event.rlog LogLine.taskCreated],
        caller := s.caller } := by
  simp [otaStart, otaStartAfterCreate, h, System.emit, xTaskCreatePinnedToCore]

/-- The two halves of a call, run one right after the other, are the whole call. -/
theorem otaStartResume_otaStartCreate (createOk : Bool) (code : List Event) (src : CString)
    (s : System) (hc : s.caller = none) (h : s._otaTask = none) :
    otaStartResume (otaStartCreate createOk code src s) =
      otaStart createOk code (some src) s := by
  cases s with
  | mk slot tasks nextHandle trace caller =>
    simp only at hc h
    subst hc h
    cases createOk <;>
      simp [otaStartResume, otaStartCreate, otaStart, otaStartAfterCreate, System.emit,
        xTaskCreatePinnedToCore]

theorem otaStartResume_tasks (s : System) : (otaStartResume s).tasks = s.tasks := by
  unfold otaStartResume otaStartAfterCreate System.emit
  cases s.caller with
  | none => rfl
  | some src => simp only []; split <;> rfl

theorem otaStartResume_otaTask (s : System) : (otaStartResume s)._otaTask = s._otaTask := by
  unfold otaStartResume otaStartAfterCreate System.emit
  cases s.caller with
  | none => rfl
  | some src => simp only []; split <;> rfl

/-! ## C8: no source -/

/-- C8, as stated, fails for the empty string: `otaStart` tests the pointer only, so
from boot a call with a non-null pointer to an empty string creates a worker, stores
its handle in `_otaTask`, and that worker sends the start alert and posts
`RE_SYS_SET`. -/
theorem C8_counterexample :
    emptySource.chars = [] ∧
    ∃ code, otaTaskExec envAlwaysFail 3 (some emptySource) = some code ∧
      (otaStart true code (some emptySource) System.boot).tasks =
        [{ handle := 1, pending := code }] ∧
      System.boot._otaTask = none ∧
      (otaStart true code (some emptySource) System.boot)._otaTask = some 1 ∧
      Event.tgSend (TgMessage.CONFIG_MESSAGE_TG_OTA emptySource) ∈ code ∧
      Event.eventLoopPostSystem BusValue.RE_SYS_SET ∈ code :=
  ⟨rfl, _, rfl, rfl, rfl, rfl, by decide, by decide⟩

/-- C8 (amended): for every call `otaStart(src)` in which `src` is null the request is
rejected at once: no task is created, `_otaTask` is left unchanged, and the only
effect is the log line "Update source not specified" (no bus event, no alert). -/
theorem C8_null_source_rejected (createOk : Bool) (code : List Event) (s : System) :
    (otaStart createOk code none s).tasks = s.tasks ∧
    (otaStart createOk code none s)._otaTask = s._otaTask ∧
    (otaStart createOk code none s).nextHandle = s.nextHandle ∧
    (otaStart createOk code none s).trace =
      s.trace ++ [Event.rlog LogLine.sourceNotSpecified] := by
  rw [otaStart_null]
  exact ⟨rfl, rfl, rfl, rfl⟩

/-! ## Release of the source buffer -/

theorem otaTaskExec_some (env : Env) (src : CString) (fuel : Nat) (code : List Event)
    (h : otaTaskExec env fuel (some src) = some code) :
    ∃ r, retryLoop env src fuel 0 0 = some r ∧
      code = startEvents env src ++ r.events ++ finishEvents env src r.err := by
  unfold otaTaskExec at h
  cases hr : retryLoop env src fuel 0 0 with
  | none => simp [hr] at h
  | some r =>
    simp [hr] at h
    exact ⟨r, rfl, by rw [← h]; simp⟩

theorem startEvents_plain (env : Env) (src : CString) :
    ∀ e ∈ startEvents env src,
      e ≠ Event.free src ∧ e ≠ Event.otaTaskNull ∧ e ≠ Event.vTaskDelete := by
  unfold startEvents
  cases env.cfg.telegram <;> cases env.esp_timer_create <;> simp

theorem inLoop_plain (src : CString) (e : Event) (h : e.inLoop = true) :
    e ≠ Event.free src ∧ e ≠ Event.otaTaskNull ∧ e ≠ Event.vTaskDelete := by
  cases e <;> simp_all [Event.inLoop]

/-- The code after the loop frees the source once; nothing after that reads it. -/
theorem finishEvents_free (env : Env) (src : CString) (err : Int) :
    ∃ a b, finishEvents env src err = a ++ Event.free src :: b ∧
      Event.free src ∉ a ∧ Event.free src ∉ b ∧ (∀ e ∈ b, e.reads src = false) := by
  refine ⟨[Event.eventLoopPostSystem BusValue.RE_SYS_CLEAR] ++
      (if env.cfg.telegram then
        (if err = ESP_OK then [Event.tgSend (TgMessage.CONFIG_MESSAGE_TG_OTA_OK err)]
         else [Event.tgSend (TgMessage.CONFIG_MESSAGE_TG_OTA_FAILED err)])
       else []),
    Event.otaTaskNull :: (stopTimerEvents env ++
      (if err = ESP_OK then
        [Event.espRestart ResetReason.RR_OTA env.cfg.CONFIG_OTA_DELAY] ++
          (if env.espRestartReturns then exitEvents else [])
       else exitEvents)), ?_, ?_, ?_, ?_⟩
  · simp [finishEvents, List.append_assoc]
  · cases env.cfg.telegram <;> by_cases h : err = ESP_OK <;> simp [h]
  · unfold stopTimerEvents exitEvents hWatchdogNonNull
    cases env.esp_timer_create <;> cases env.uninitHWatchdog <;>
      cases env.esp_timer_is_active <;> cases env.espRestartReturns <;>
      by_cases h : err = ESP_OK <;> simp [h]
  · unfold stopTimerEvents exitEvents hWatchdogNonNull
    cases env.esp_timer_create <;> cases env.uninitHWatchdog <;>
      cases env.esp_timer_is_active <;> cases env.espRestartReturns <;>
      by_cases h : err = ESP_OK <;> simp [h, Event.reads]

/-- The worker frees its source once; nothing after that reads it. -/
theorem otaTaskExec_free (env : Env) (src : CString) (fuel : Nat) (code : List Event)
    (h : otaTaskExec env fuel (some src) = some code) :
    ∃ a b, code = a ++ Event.free src :: b ∧
      Event.free src ∉ a ∧ Event.free src ∉ b ∧ (∀ e ∈ b, e.reads src = false) := by
  obtain ⟨r, hr, rfl⟩ := otaTaskExec_some env src fuel code h
  have hloop := retryLoop_inLoop env src fuel 0 0 r hr
  obtain ⟨a, b, hab, ha, hb, hreads⟩ := finishEvents_free env src r.err
  refine ⟨startEvents env src ++ r.events ++ a, b, ?_, ?_, hb, hreads⟩
  · rw [hab]
    simp [List.append_assoc]
  · simp only [List.mem_append, not_or]
    refine ⟨⟨?_, ?_⟩, ha⟩
    · intro hm
      exact (startEvents_plain env src _ hm).1 rfl
    · intro hm
      exact (inLoop_plain src _ (hloop _ hm)).1 rfl

/-- A call `otaStart(src)` with a non-null source that no worker interrupts between
line 113 and line 114: in any state and whether or not task creation succeeds, the
effects of the call followed by those of the worker it creates (if it creates one:
then `code` is the run of a worker whose loop ends) contain `free(src)` once, and no
effect after it reads the buffer. -/
theorem otaStart_uninterrupted_release_once (env : Env) (fuel : Nat) (createOk : Bool) (src : CString)
    (code : List Event) (s : System)
    (h : s._otaTask = none → createOk = true →
      otaTaskExec env fuel (some src) = some code) :
    ∃ own spawned,
      (otaStart createOk code (some src) s).trace = s.trace ++ own ∧
      (otaStart createOk code (some src) s).tasks = s.tasks ++ spawned ∧
      (spawned = [] ∨ spawned = [{ handle := s.nextHandle, pending := code }]) ∧
      ∃ a b, own ++ spawned.flatMap Task.pending = a ++ Event.free src :: b ∧
        Event.free src ∉ a ∧ Event.free src ∉ b ∧ (∀ e ∈ b, e.reads src = false) := by
  by_cases hslot : s._otaTask = none
  · cases createOk with
    | false =>
      rw [otaStart_createFailed code src s hslot]
      exact ⟨[Event.rlog LogLine.taskCreateFailed, Event.free src], [], rfl, by simp,
        Or.inl rfl, [Event.rlog LogLine.taskCreateFailed], [], by simp, by simp, by simp,
        by simp⟩
    | true =>
      rw [otaStart_created code src s hslot]
      obtain ⟨a, b, hab, ha, hb, hreads⟩ := otaTaskExec_free env src fuel code (h hslot rfl)
      refine ⟨[Event.rlog LogLine.taskCreated], [{ handle := s.nextHandle, pending := code }],
        rfl, rfl, Or.inr rfl, Event.rlog LogLine.taskCreated :: a, b, ?_, ?_, hb, hreads⟩
      · simp [hab]
      · simpa using ha
  · rw [otaStart_busy createOk code src s hslot]
    exact ⟨[Event.rlog LogLine.alreadyStarted, Event.free src], [], rfl, by simp,
      Or.inl rfl, [Event.rlog LogLine.alreadyStarted], [], by simp, by simp, by simp,
      by simp⟩

/-! ## C1: admission -/

theorem deleteOnlyLast_append (a b : List Event) (ha : Event.vTaskDelete ∉ a) :
    deleteOnlyLast (a ++ b) = deleteOnlyLast b := by
  induction a with
  | nil => rfl
  | cons e a ih =>
    have hne : e ≠ Event.vTaskDelete := by
      intro he
      exact ha (by simp [he])
    have hrest : Event.vTaskDelete ∉ a := by
      intro hm
      exact ha (by simp [hm])
    simp [deleteOnlyLast, hne, ih hrest]

theorem finishEvents_deleteOnlyLast (env : Env) (src : CString) (err : Int) :
    deleteOnlyLast (finishEvents env src err) = true := by
  unfold finishEvents stopTimerEvents exitEvents hWatchdogNonNull
  cases env.cfg.telegram <;> cases env.esp_timer_create <;> cases env.uninitHWatchdog <;>
    cases env.esp_timer_is_active <;> cases env.espRestartReturns <;>
    by_cases h : err = ESP_OK <;> simp [deleteOnlyLast, h]

theorem finishEvents_count_null (env : Env) (src : CString) (err : Int) :
    (finishEvents env src err).count Event.otaTaskNull = 1 := by
  unfold finishEvents stopTimerEvents exitEvents hWatchdogNonNull
  cases env.cfg.telegram <;> cases env.esp_timer_create <;> cases env.uninitHWatchdog <;>
    cases env.esp_timer_is_active <;> cases env.espRestartReturns <;>
    by_cases h : err = ESP_OK <;> simp [List.count_cons, h]

/-- A worker with a non-null source executes `_otaTask = nullptr` exactly once, and
`vTaskDelete` can only be its last effect. -/
theorem otaTaskExec_wellFormed (env : Env) (src : CString) (fuel : Nat) (code : List Event)
    (h : otaTaskExec env fuel (some src) = some code) :
    code.count Event.otaTaskNull = 1 ∧ deleteOnlyLast code = true := by
  obtain ⟨r, hr, rfl⟩ := otaTaskExec_some env src fuel code h
  have hloop := retryLoop_inLoop env src fuel 0 0 r hr
  have hs : (startEvents env src).count Event.otaTaskNull = 0 :=
    List.count_eq_zero.mpr (fun hm => (startEvents_plain env src _ hm).2.1 rfl)
  have hl : r.events.count Event.otaTaskNull = 0 :=
    List.count_eq_zero.mpr (fun hm => (inLoop_plain src _ (hloop _ hm)).2.1 rfl)
  constructor
  · simp [List.count_append, hs, hl, finishEvents_count_null]
  · rw [deleteOnlyLast_append _ _ ?_]
    · exact finishEvents_deleteOnlyLast env src r.err
    · simp only [List.mem_append, not_or]
      exact ⟨fun hm => (startEvents_plain env src _ hm).2.2 rfl,
        fun hm => (inLoop_plain src _ (hloop _ hm)).2.2 rfl⟩

/-- One step of one task: the tasks stay well formed, and the number of workers that
have not yet cleared `_otaTask` drops by one exactly when the effect performed is
`_otaTask = nullptr`. -/
theorem performAt_holders (ts : List Task) :
    ∀ (i : Nat) (e : Event) (ts1 : List Task),
      (∀ t ∈ ts, t.pending.count Event.otaTaskNull ≤ 1 ∧ deleteOnlyLast t.pending = true) →
      performAt i ts = some (e, ts1) →
      (∀ t ∈ ts1, t.pending.count Event.otaTaskNull ≤ 1 ∧ deleteOnlyLast t.pending = true) ∧
      ts1.countP Task.holdsSlot + (if e = Event.otaTaskNull then 1 else 0) =
        ts.countP Task.holdsSlot := by
  induction ts with
  | nil => intro i e ts1 _ h; cases i <;> simp [performAt] at h
  | cons t ts ih =>
    intro i e ts1 hwf h
    have hwft := hwf t (by simp)
    have hwfts : ∀ u ∈ ts, u.pending.count Event.otaTaskNull ≤ 1 ∧
        deleteOnlyLast u.pending = true := fun u hu => hwf u (by simp [hu])
    cases i with
    | zero =>
      cases hp : t.pending with
      | nil => simp [performAt, hp] at h
      | cons e0 rest =>
        simp only [performAt, hp, Option.some.injEq, Prod.mk.injEq] at h
        obtain ⟨rfl, hts1⟩ := h
        rw [hp] at hwft
        obtain ⟨hcount, hdel⟩ := hwft
        by_cases hd : e0 = Event.vTaskDelete
        · subst hd
          simp only [if_true] at hts1
          subst hts1
          have hrest : rest = [] := by
            simp [deleteOnlyLast] at hdel
            exact hdel.1
          have hholds : t.holdsSlot = false := by
            simp [Task.holdsSlot, hp, hrest]
          refine ⟨hwfts, ?_⟩
          simp [List.countP_cons, hholds]
        · rw [if_neg hd] at hts1
          subst hts1
          have hdel1 : deleteOnlyLast rest = true := by
            simp [deleteOnlyLast, hd] at hdel
            exact hdel
          by_cases hn : e0 = Event.otaTaskNull
          · subst hn
            have hc0 : rest.count Event.otaTaskNull = 0 := by
              simp [List.count_cons] at hcount
              exact hcount
            have hnot : Event.otaTaskNull ∉ rest := List.count_eq_zero.mp hc0
            refine ⟨?_, ?_⟩
            · intro u hu
              simp only [List.mem_cons] at hu
              rcases hu with rfl | hu
              · exact ⟨by simp [hc0], hdel1⟩
              · exact hwfts u hu
            · have h1 : t.holdsSlot = true := by simp [Task.holdsSlot, hp]
              have h2 : Task.holdsSlot { t with pending := rest } = false := by
                simpa [Task.holdsSlot] using hnot
              simp [List.countP_cons, h1, h2]
          · have hc1 : rest.count Event.otaTaskNull ≤ 1 := by
              simp [List.count_cons, hn] at hcount
              exact hcount
            refine ⟨?_, ?_⟩
            · intro u hu
              simp only [List.mem_cons] at hu
              rcases hu with rfl | hu
              · exact ⟨hc1, hdel1⟩
              · exact hwfts u hu
            · have h12 : Task.holdsSlot { t with pending := rest } = t.holdsSlot := by
                have hne : ¬ Event.otaTaskNull = e0 := fun hh => hn hh.symm
                simp [Task.holdsSlot, hp, hne]
              simp [List.countP_cons, h12, hn]
    | succ i =>
      cases hrec : performAt i ts with
      | none => simp [performAt, hrec] at h
      | some res =>
        obtain ⟨e1, ts2⟩ := res
        simp only [performAt, hrec, Option.some.injEq, Prod.mk.injEq] at h
        obtain ⟨rfl, rfl⟩ := h
        obtain ⟨hwf2, hcnt⟩ := ih i e1 ts2 hwfts hrec
        refine ⟨?_, ?_⟩
        · intro u hu
          simp only [List.mem_cons] at hu
          rcases hu with rfl | hu
          · exact hwft
          · exact hwf2 u hu
        · simp only [List.countP_cons]
          omega

/-- Line 113, executed while `_otaTask` is null, keeps the tasks well formed and the
number of workers that have not yet cleared `_otaTask` in step with `_otaTask`. -/
theorem xTaskCreatePinnedToCore_invariant (env : Env) (fuel : Nat) (createOk : Bool)
    (src : CString) (code : List Event) (s : System)
    (hcode : otaTaskExec env fuel (some src) = some code) (hslot : s._otaTask = none)
    (hwf : ∀ t ∈ s.tasks, t.pending.count Event.otaTaskNull ≤ 1 ∧
      deleteOnlyLast t.pending = true)
    (hcnt : s.tasks.countP Task.holdsSlot = (if s._otaTask.isSome then 1 else 0)) :
    (∀ t ∈ (xTaskCreatePinnedToCore createOk code s).tasks,
      t.pending.count Event.otaTaskNull ≤ 1 ∧ deleteOnlyLast t.pending = true) ∧
    (xTaskCreatePinnedToCore createOk code s).tasks.countP Task.holdsSlot =
      (if (xTaskCreatePinnedToCore createOk code s)._otaTask.isSome then 1 else 0) := by
  cases createOk with
  | false => exact ⟨hwf, hcnt⟩
  | true =>
    obtain ⟨hc1, hdel⟩ := otaTaskExec_wellFormed env src fuel code hcode
    have hmem : Event.otaTaskNull ∈ code := List.count_pos_iff.mp (by omega)
    have hholds : Task.holdsSlot { handle := s.nextHandle, pending := code } = true := by
      simpa [Task.holdsSlot] using hmem
    have hzero : s.tasks.countP Task.holdsSlot = 0 := by
      simpa [hslot] using hcnt
    refine ⟨?_, ?_⟩
    · intro t ht
      simp only [xTaskCreatePinnedToCore, if_true, List.mem_append, List.mem_singleton] at ht
      rcases ht with ht | rfl
      · exact hwf t ht
      · exact ⟨by simp [hc1], hdel⟩
    · simp [xTaskCreatePinnedToCore, List.countP_append, List.countP_cons, hzero, hholds]

/-- In every reachable state the tasks are well formed, and the number of workers that
have not yet cleared `_otaTask` is one if `_otaTask` is non-null and zero otherwise. -/
theorem reachable_invariant (s : System) (h : Reachable s) :
    (∀ t ∈ s.tasks, t.pending.count Event.otaTaskNull ≤ 1 ∧ deleteOnlyLast t.pending = true) ∧
    s.slotHolders = (if s._otaTask.isSome then 1 else 0) := by
  induction h with
  | boot => simp [System.boot, System.slotHolders]
  | @start s env fuel createOk otaSource code _ hcode ih =>
    obtain ⟨hwf, hcnt⟩ := ih
    cases otaSource with
    | none =>
      rw [otaStart_null]
      exact ⟨hwf, hcnt⟩
    | some src =>
      by_cases hslot : s._otaTask = none
      · cases createOk with
        | false =>
          rw [otaStart_createFailed code src s hslot]
          exact ⟨hwf, hcnt⟩
        | true =>
          rw [otaStart_created code src s hslot]
          obtain ⟨hc1, hdel⟩ := otaTaskExec_wellFormed env src fuel code hcode
          have hmem : Event.otaTaskNull ∈ code :=
            List.count_pos_iff.mp (by omega)
          have hholds : Task.holdsSlot { handle := s.nextHandle, pending := code } = true := by
            simpa [Task.holdsSlot] using hmem
          have hzero : s.tasks.countP Task.holdsSlot = 0 := by
            simpa [System.slotHolders, hslot] using hcnt
          refine ⟨?_, ?_⟩
          · intro t ht
            simp only [List.mem_append, List.mem_singleton] at ht
            rcases ht with ht | rfl
            · exact hwf t ht
            · exact ⟨by simp [hc1], hdel⟩
          · simp [System.slotHolders, List.countP_append, List.countP_cons, hzero, hholds]
      · rw [otaStart_busy createOk code src s hslot]
        exact ⟨hwf, hcnt⟩
  | @create s env fuel createOk src code _ _ hslot hcode ih =>
    obtain ⟨hwf, hcnt⟩ := ih
    exact xTaskCreatePinnedToCore_invariant env fuel createOk src code s hcode hslot hwf hcnt
  | @resume s _ ih =>
    obtain ⟨hwf, hcnt⟩ := ih
    unfold System.slotHolders at hcnt ⊢
    rw [otaStartResume_tasks, otaStartResume_otaTask]
    exact ⟨hwf, hcnt⟩
  | @step s i _ ih =>
    obtain ⟨hwf, hcnt⟩ := ih
    unfold System.stepTask
    cases hp : performAt i s.tasks with
    | none => exact ⟨hwf, hcnt⟩
    | some res =>
      obtain ⟨e, ts1⟩ := res
      obtain ⟨hwf1, hcnt1⟩ := performAt_holders s.tasks i e ts1 hwf hp
      refine ⟨hwf1, ?_⟩
      simp only [System.slotHolders] at hcnt
      show ts1.countP Task.holdsSlot = if (e.applySlot s._otaTask).isSome then 1 else 0
      by_cases he : e = Event.otaTaskNull
      · subst he
        have hg : Event.applySlot Event.otaTaskNull s._otaTask = none := by
          simp [Event.applySlot]
        rw [hg]
        show ts1.countP Task.holdsSlot = 0
        simp only [if_true] at hcnt1
        cases hs : s._otaTask with
        | none =>
          rw [hs] at hcnt
          have hz : s.tasks.countP Task.holdsSlot = 0 := hcnt
          omega
        | some v =>
          rw [hs] at hcnt
          have hz : s.tasks.countP Task.holdsSlot = 1 := hcnt
          omega
      · have hg : Event.applySlot e s._otaTask = s._otaTask := by
          simp [Event.applySlot, he]
        rw [hg]
        simp only [if_neg he] at hcnt1
        omega

theorem reachable_stepsTask (i n : Nat) :
    ∀ s, Reachable s → Reachable (System.stepsTask i n s) := by
  induction n with
  | zero => intro s h; exact h
  | succ n ih => intro s h; exact ih _ (Reachable.step i h)

/-- C1, as stated, fails: the worker clears `_otaTask` (line 88) before it ends. In the
reachable state in which the first worker has just done so and has still to release
the timer, post `RE_SYS_CLEAR` and call `vTaskDelete`, a call `otaStart(fwSource2)` is
not rejected: it creates a second worker and changes `_otaTask`. -/
theorem C1_counterexample :
    Reachable raceState ∧
    raceState.tasks =
      [{ handle := 1,
         pending := [Event.esp_timer_is_active true, Event.esp_timer_stop,
                     Event.esp_timer_delete,
                     Event.eventLoopPostSystem BusValue.RE_SYS_CLEAR, Event.vTaskDelete] }] ∧
    raceState._otaTask = none ∧
    Reachable (otaStart true raceCode2 (some fwSource2) raceState) ∧
    (otaStart true raceCode2 (some fwSource2) raceState).tasks.length = 2 ∧
    (otaStart true raceCode2 (some fwSource2) raceState)._otaTask = some 2 := by
  have hr : Reachable raceState :=
    reachable_stepsTask 0 21 _
      (Reachable.start envAlwaysFail 3 true (some fwSource) raceCode Reachable.boot rfl)
  exact ⟨hr, by decide, by decide,
    Reachable.start envAlwaysFail 3 true (some fwSource2) raceCode2 hr rfl,
    by decide, by decide⟩

/-- C1 (amended): in every reachable state at most one worker has not yet executed
`_otaTask = nullptr` (line 88), and there is exactly one such worker if and only if
`_otaTask` is non-null; in every reachable state in which `_otaTask` is non-null a call
`otaStart(src)` with a non-null source is rejected as already running: the tasks and
the effects they have still to perform are unchanged, `_otaTask` is unchanged, and
the call only logs the rejection and frees `src`. -/
theorem C1_mutual_exclusion (s : System) (h : Reachable s) :
    s.slotHolders ≤ 1 ∧
    (s._otaTask ≠ none ↔ s.slotHolders = 1) ∧
    (s._otaTask ≠ none → ∀ (createOk : Bool) (code : List Event) (src : CString),
      (otaStart createOk code (some src) s).tasks = s.tasks ∧
      (otaStart createOk code (some src) s)._otaTask = s._otaTask ∧
      (otaStart createOk code (some src) s).nextHandle = s.nextHandle ∧
      (otaStart createOk code (some src) s).trace =
        s.trace ++ [Event.rlog LogLine.alreadyStarted, Event.free src]) := by
  obtain ⟨-, hcnt⟩ := reachable_invariant s h
  refine ⟨?_, ?_, ?_⟩
  · rw [hcnt]
    split <;> omega
  · rw [hcnt]
    cases s._otaTask <;> simp
  · intro hslot createOk code src
    rw [otaStart_busy createOk code src s hslot]
    exact ⟨rfl, rfl, rfl, rfl⟩

/-- Witness of C1 (amended): the state right after an accepted `otaStart` from boot. -/
theorem C1_mutual_exclusion_witness :
    Reachable (otaStart true raceCode (some fwSource) System.boot) ∧
    (otaStart true raceCode (some fwSource) System.boot).slotHolders ≤ 1 ∧
    ((otaStart true raceCode (some fwSource) System.boot)._otaTask ≠ none ↔
      (otaStart true raceCode (some fwSource) System.boot).slotHolders = 1) ∧
    ((otaStart true raceCode (some fwSource) System.boot)._otaTask ≠ none →
      ∀ (createOk : Bool) (code : List Event) (src : CString),
        (otaStart createOk code (some src)
          (otaStart true raceCode (some fwSource) System.boot)).tasks =
          (otaStart true raceCode (some fwSource) System.boot).tasks ∧
        (otaStart createOk code (some src)
          (otaStart true raceCode (some fwSource) System.boot))._otaTask =
          (otaStart true raceCode (some fwSource) System.boot)._otaTask ∧
        (otaStart createOk code (some src)
          (otaStart true raceCode (some fwSource) System.boot)).nextHandle =
          (otaStart true raceCode (some fwSource) System.boot).nextHandle ∧
        (otaStart createOk code (some src)
          (otaStart true raceCode (some fwSource) System.boot)).trace =
          (otaStart true raceCode (some fwSource) System.boot).trace ++
            [Event.rlog LogLine.alreadyStarted, Event.free src]) :=
  ⟨Reachable.start envAlwaysFail 3 true (some fwSource) raceCode Reachable.boot rfl,
   C1_mutual_exclusion _
     (Reachable.start envAlwaysFail 3 true (some fwSource) raceCode Reachable.boot rfl)⟩

/-! ## C5: the source buffer is released once -/

/-- C5 holds of no schedule in which the worker reaches line 88 before its creator
reaches line 114. From boot, `otaStart(fwSource)` creates the worker (line 113); the
worker (no settle delay, one attempt that fails at once) runs to its end, freeing
the buffer (line 87) and clearing `_otaTask` (line 88); the caller then reads
`_otaTask` at line 114, finds it null, logs that the task could not be created and
frees the buffer again (line 119): `free(fwSource)` occurs twice. -/
theorem C5_double_free :
    Reachable doubleFreeState ∧
    doubleFreeState.trace =
      [Event.eventLoopPostSystem BusValue.RE_SYS_SET,
       Event.vTaskDelay 0,
       Event.esp_timer_create true,
       Event.esp_timer_start_once 600000000,
       Event.rlog (LogLine.startOfUpgrade fwSource 1),
       Event.esp_https_ota fwSource false true false (-1),
       Event.rlog (LogLine.upgradeFailed (-1)),
       Event.vTaskDelay 0,
       Event.eventLoopPostSystem BusValue.RE_SYS_CLEAR,
       Event.free fwSource,
       Event.otaTaskNull,
       Event.esp_timer_is_active true,
       Event.esp_timer_stop,
       Event.esp_timer_delete,
       Event.eventLoopPostSystem BusValue.RE_SYS_CLEAR,
       Event.vTaskDelete,
       Event.rlog LogLine.taskCreateFailed,
       Event.free fwSource] ∧
    doubleFreeState.trace.count (Event.free fwSource) = 2 ∧
    doubleFreeState.tasks = [] ∧ doubleFreeState._otaTask = none := by
  refine ⟨?_, by decide, by decide, by decide, by decide⟩
  exact Reachable.resume
    (reachable_stepsTask 0 16 _
      (Reachable.create envFailAtOnce 1 true fwSource doubleFreeCode Reachable.boot rfl rfl rfl))

end ReOTA
